import Mathlib

/-!
Shallow embedding of `src/main.py` (a Streamlit person-counting app).
The detector state machine `PersonDetector`, the `AudioManager`, the
`AUDIO_FILES` table and the UI polling loop are modelled as pure
functions over explicit state, mirroring the Python source line by line.
-/

/-- Outcome of one detector (YOLO model) invocation on a frame: an
exception carrying a message, or an optional list of class ids of the
detected boxes (`Option.none` models `results[0].boxes is None`). -/
abbrev FrameDet := Except String (Option (List Nat))

/-- Number of person-class detections in one detector result:
`count = 0; if results[0].boxes is not None: count = sum(int(box.cls[0]) == 0 for box in results[0].boxes)`. -/
def countPersons : Option (List Nat) → Nat
  | Option.none => 0
  | Option.some cls => (cls.filter (fun c => c == 0)).length

/-- Append to a `collections.deque` with `maxlen = cap`: the oldest
entries are evicted from the front so that at most `cap` remain. -/
def dequeAppend (cap : Nat) (h : List Nat) (x : Nat) : List Nat :=
  let h2 := h ++ [x]
  if h2.length ≤ cap then h2 else h2.drop (h2.length - cap)

/-- Integer median as computed by `int(np.median(history))` on a list of
natural numbers: sort ascending, take the middle element for odd length,
and the truncated mean of the two middle elements for even length.  This
is exact for the small nonnegative integers kept in the history (the
float arithmetic of `np.median` is exact below 2^52 and `int` truncates
toward zero, which on nonnegative values is floor). -/
def intMedian (l : List Nat) : Nat :=
  let s := List.insertionSort (fun a b => a ≤ b) l
  let n := s.length
  if n % 2 = 1 then s.getD (n / 2) 0
  else (s.getD (n / 2 - 1) 0 + s.getD (n / 2) 0) / 2

/-- State of `PersonDetector` (`__init__`, src/main.py lines 131-136).
`audio_cooldown` is kept as an integer (Python `int`), so that its
nonnegativity is a genuine invariant rather than a typing artefact. -/
structure PersonDetector where
  person_count : Nat
  frame_count : Nat
  detection_history : List Nat
  last_reported_count : Nat
  audio_cooldown : Int
  deriving DecidableEq

/-- Initial detector state: all counters zero, empty history. -/
def PersonDetector.init : PersonDetector :=
  { person_count := 0, frame_count := 0, detection_history := [],
    last_reported_count := 0, audio_cooldown := 0 }

/-- One call of `PersonDetector.recv` (src/main.py lines 138-166) on the
detector outcome of the incoming frame.  Returns the updated state and,
when the model call raised, the propagated exception message (in Python
the exception escapes `recv` after `frame_count` was already mutated).
Only every 2nd frame is processed; a processed frame clamps the person
count to 5, appends it to the history, recomputes the median, and
decrements a positive cooldown. -/
def PersonDetector.recv (d0 : PersonDetector) (det : FrameDet) :
    PersonDetector × Option String :=
  let d1 := { d0 with frame_count := d0.frame_count + 1 }
  if d1.frame_count % 2 = 0 then
    match det with
    | Except.error e => (d1, Option.some e)
    | Except.ok boxes =>
        let count := min (countPersons boxes) 5
        let hist := dequeAppend 5 d1.detection_history count
        let d2 := { d1 with detection_history := hist }
        let d3 := if hist.isEmpty then d2
                  else { d2 with person_count := intMedian hist }
        let d4 := if 0 < d3.audio_cooldown then
                    { d3 with audio_cooldown := d3.audio_cooldown - 1 }
                  else d3
        (d4, Option.none)
  else (d1, Option.none)

/-- One call of `PersonDetector.should_play_audio` (src/main.py lines
168-177): returns the decision and the updated state.  State is mutated
(commit of `last_reported_count`, cooldown set to 10) only on the `True`
branch. -/
def PersonDetector.should_play_audio (d : PersonDetector)
    (current_count : Nat) : Bool × PersonDetector :=
  if current_count ≠ d.last_reported_count ∧ 0 < current_count ∧
      d.audio_cooldown = 0 then
    (true, { d with last_reported_count := current_count,
                    audio_cooldown := 10 })
  else
    (false, d)

/-- The `AUDIO_FILES` table (src/main.py lines 32-38). -/
def AUDIO_FILES (n : Nat) : Option String :=
  if n = 1 then Option.some "1_person.mp3"
  else if n = 2 then Option.some "2_people.mp3"
  else if n = 3 then Option.some "3_people.mp3"
  else if n = 4 then Option.some "4_people.mp3"
  else if n = 5 then Option.some "5_people.mp3"
  else Option.none

/-- Side effects visible to the Streamlit page during one loop
iteration: metric updates, status messages, injected audio markup. -/
inductive UIEvent where
  | metric (n : Nat)
  | successMsg (s : String)
  | errorMsg (s : String)
  | infoMsg (s : String)
  | htmlInject (s : String)
  deriving DecidableEq

/-- State of `AudioManager` (src/main.py lines 43-46). -/
structure AudioManager where
  current_audio_id : Option String
  is_playing : Bool
  deriving DecidableEq

/-- Initial audio-manager state. -/
def AudioManager.init : AudioManager :=
  { current_audio_id := Option.none, is_playing := false }

/-- `AudioManager.stop_audio` (src/main.py lines 108-122): injects the
stop script and clears the playing state. -/
def AudioManager.stop_audio (_m : AudioManager) :
    AudioManager × List UIEvent :=
  ({ current_audio_id := Option.none, is_playing := false },
   [UIEvent.htmlInject "stop-all-audio"])

/-- `AudioManager.play_audio` (src/main.py lines 48-106).  The file
system is a map from path to contents; a missing file models the
`open` call raising, which the method's `try/except` turns into an
`st.error` message (so the method always returns normally).  `uid`
stands for the timestamp-derived element id. -/
def AudioManager.play_audio (m : AudioManager)
    (fs : String → Option String) (uid file_path : String) :
    AudioManager × List UIEvent :=
  let r1 := m.stop_audio
  match fs file_path with
  | Option.none =>
      (r1.1, r1.2 ++ [UIEvent.errorMsg ("Error playing " ++ file_path)])
  | Option.some _b64 =>
      ({ current_audio_id := Option.some uid, is_playing := true },
       r1.2 ++ [UIEvent.htmlInject ("audio_" ++ uid)])

/-- The alert action taken by one iteration of the UI polling loop, in
the vocabulary of the specification: `announce n` when the loop calls
`audio_manager.play_audio` for count `n`, `silence` when it takes the
count-dropped-to-zero branch, `noAction` otherwise. -/
inductive AlertAction where
  | announce (n : Nat)
  | silence
  | noAction
  deriving DecidableEq

/-- Combined state of one iteration of the UI polling loop: the shared
detector, the audio manager, and the loop/session variables
(src/main.py lines 186-216). -/
structure LoopState where
  detector : PersonDetector
  manager : AudioManager
  last_played_count : Nat
  last_displayed_count : Nat
  audio_enabled : Bool
  deriving DecidableEq

/-- Initial loop state: session defaults (`last_displayed_count = 0`,
`audio_enabled = True`) and fresh detector/manager. -/
def loopInit : LoopState :=
  { detector := PersonDetector.init, manager := AudioManager.init,
    last_played_count := 0, last_displayed_count := 0,
    audio_enabled := true }

/-- One iteration of the `while ctx.state.playing` body (src/main.py
lines 218-247): read `person_count`, update the metric, run
`should_play_audio`, and take exactly one of the three status branches.
Returns the new state, the emitted UI events, and the alert action.
All exception paths inside `play_audio` are caught there, so the body
always completes normally. -/
def uiTick (s : LoopState) (fs : String → Option String) (uid : String) :
    LoopState × List UIEvent × AlertAction :=
  let current_count := s.detector.person_count
  let ev0 := [UIEvent.metric current_count]
  let sp := s.detector.should_play_audio current_count
  let s1 := { s with detector := sp.2 }
  if sp.1 && s1.audio_enabled then
    match AUDIO_FILES current_count with
    | Option.some file =>
        let pr := s1.manager.play_audio fs uid file
        ({ s1 with manager := pr.1,
                   last_played_count := current_count,
                   last_displayed_count := current_count },
         ev0 ++ pr.2 ++ [UIEvent.successMsg "Played audio"],
         AlertAction.announce current_count)
    | Option.none => (s1, ev0, AlertAction.noAction)
  else if current_count = 0 ∧ s1.last_played_count ≠ 0 then
    ({ s1 with last_played_count := 0, last_displayed_count := 0 },
     ev0 ++ [UIEvent.infoMsg "Waiting for people"],
     AlertAction.silence)
  else if current_count = s1.last_played_count ∧ 0 < current_count then
    (s1, ev0 ++ [UIEvent.infoMsg "Tracking"], AlertAction.noAction)
  else (s1, ev0, AlertAction.noAction)

/-- One interleaved step of the two execution contexts: a frame
arriving at the background `recv` callback, or one poll of the UI loop. -/
inductive SysOp where
  | frameOp (det : FrameDet)
  | pollOp (fs : String → Option String) (uid : String)

/-- Whether a system operation is a frame callback. -/
def SysOp.isFrameOp : SysOp → Bool
  | SysOp.frameOp _ => true
  | SysOp.pollOp _ _ => false

/-- Apply one system operation to the combined state, yielding the alert
action it emitted (frame callbacks emit none). -/
def sysStep (s : LoopState) : SysOp → LoopState × AlertAction
  | SysOp.frameOp det =>
      ({ s with detector := (s.detector.recv det).1 }, AlertAction.noAction)
  | SysOp.pollOp fs uid =>
      let r := uiTick s fs uid
      (r.1, r.2.2)

/-- Run a sequence of interleaved system operations, collecting the
alert action of each step. -/
def sysRun (s : LoopState) : List SysOp → LoopState × List AlertAction
  | [] => (s, [])
  | op :: ops =>
      let r := sysStep s op
      let rest := sysRun r.1 ops
      (rest.1, r.2 :: rest.2)

/-- Whether an alert action is an announcement. -/
def AlertAction.isAnnounce : AlertAction → Bool
  | AlertAction.announce _ => true
  | _ => false

/-- Whether an alert action is an emitted audio action (announce or
silence), as opposed to doing nothing. -/
def AlertAction.isAudioAction : AlertAction → Bool
  | AlertAction.announce _ => true
  | AlertAction.silence => true
  | AlertAction.noAction => false

/-- One consumer poll after the producer has published stabilized count
`c` (the producer context only ever writes `person_count`; the consumer
reads it and owns the trigger state).  Models one iteration of the UI
loop at a tick where the stabilized count reads `c`. -/
def readTick (s : LoopState) (c : Nat) (fs : String → Option String)
    (uid : String) : LoopState × AlertAction :=
  let s0 := { s with detector := { s.detector with person_count := c } }
  let r := uiTick s0 fs uid
  (r.1, r.2.2)

/-- Run consecutive consumer polls over a published stabilized-count
sequence, collecting the alert actions. -/
def pollRun (s : LoopState) (fs : String → Option String) (uid : String) :
    List Nat → LoopState × List AlertAction
  | [] => (s, [])
  | c :: cs =>
      let r := readTick s c fs uid
      let rest := pollRun r.1 fs uid cs
      (rest.1, r.2 :: rest.2)

/-- Feed a sequence of frames to the background callback
(`runFrames d frames` iterates `recv`, keeping the mutated state also
when a frame raised). -/
def PersonDetector.runFrames (d : PersonDetector) : List FrameDet → PersonDetector
  | [] => d
  | f :: fs => ((d.recv f).1).runFrames fs

/-- The clamped person counts actually inserted into the history when
the frames are fed to `recv` starting from frame counter `fc`: every
2nd frame whose detector call succeeded contributes `min count 5`;
frames whose call raised contribute nothing. -/
def processedCounts : Nat → List FrameDet → List Nat
  | _, [] => []
  | fc, f :: fs =>
      if (fc + 1) % 2 = 0 then
        match f with
        | Except.error _ => processedCounts (fc + 1) fs
        | Except.ok boxes =>
            min (countPersons boxes) 5 :: processedCounts (fc + 1) fs
      else processedCounts (fc + 1) fs

/-- The suffix of the last `n` entries of a list. -/
def lastN (n : Nat) (l : List α) : List α := l.drop (l.length - n)

/-! ### Helper lemmas about the trigger step -/

/-- A count has an audio file exactly when it lies in 1..5. -/
theorem AUDIO_FILES_range (n : Nat) (f : String)
    (h : AUDIO_FILES n = Option.some f) : 1 ≤ n ∧ n ≤ 5 := by
  unfold AUDIO_FILES at h
  repeat' split at h
  all_goals first | omega | simp_all

/-- `should_play_audio` answers `True` exactly when the count changed, is
positive, and the cooldown is zero. -/
theorem spa_true_iff (d : PersonDetector) (c : Nat) :
    (d.should_play_audio c).1 = true ↔
      (c ≠ d.last_reported_count ∧ 0 < c ∧ d.audio_cooldown = 0) := by
  unfold PersonDetector.should_play_audio
  split <;> simp_all

/-- The two executions of `should_play_audio`: the `True` branch commits
and arms the cooldown, the `False` branch changes nothing. -/
theorem spa_state_cases (d : PersonDetector) (c : Nat) :
    ((d.should_play_audio c).1 = true ∧
      (d.should_play_audio c).2 =
        { d with last_reported_count := c, audio_cooldown := 10 }) ∨
    ((d.should_play_audio c).1 = false ∧ (d.should_play_audio c).2 = d) := by
  unfold PersonDetector.should_play_audio
  split
  · exact Or.inl ⟨rfl, rfl⟩
  · exact Or.inr ⟨rfl, rfl⟩

/-- On the `False` branch, `should_play_audio` leaves the state intact. -/
theorem spa_false_state (d : PersonDetector) (c : Nat)
    (h : (d.should_play_audio c).1 = false) :
    (d.should_play_audio c).2 = d := by
  rcases spa_state_cases d c with ⟨h1, _⟩ | ⟨_, h2⟩
  · simp [h] at h1
  · exact h2

/-- On the `True` branch, `should_play_audio` commits the count and arms
the ten-tick cooldown. -/
theorem spa_true_state (d : PersonDetector) (c : Nat)
    (h : (d.should_play_audio c).1 = true) :
    (d.should_play_audio c).2 =
      { d with last_reported_count := c, audio_cooldown := 10 } := by
  rcases spa_state_cases d c with ⟨_, h2⟩ | ⟨h1, _⟩
  · exact h2
  · simp [h] at h1

/-- Every branch of the loop body leaves the detector exactly as
`should_play_audio` left it: the UI iteration itself never touches the
trigger state further. -/
theorem uiTick_detector_eq (s : LoopState) (fs : String → Option String)
    (uid : String) :
    (uiTick s fs uid).1.detector =
      (s.detector.should_play_audio s.detector.person_count).2 := by
  simp only [uiTick]
  repeat' split
  all_goals rfl

/-- If a loop iteration announces `c`, then `c` is the stabilized count
that was read, the trigger fired, audio was enabled, and `c` has a clip. -/
theorem uiTick_announce_inv (s : LoopState) (fs : String → Option String)
    (uid : String) (c : Nat)
    (h : (uiTick s fs uid).2.2 = AlertAction.announce c) :
    c = s.detector.person_count ∧
    (s.detector.should_play_audio s.detector.person_count).1 = true ∧
    s.audio_enabled = true ∧ ∃ f, AUDIO_FILES c = Option.some f := by
  simp only [uiTick] at h
  split at h
  · rename_i hcond
    rw [Bool.and_eq_true] at hcond
    split at h
    · rename_i f hf
      simp only [AlertAction.announce.injEq] at h
      subst h
      exact ⟨rfl, hcond.1, hcond.2, f, hf⟩
    · simp at h
  · split at h
    · simp at h
    · split at h <;> simp at h

/-- Cooldown evolution under one frame callback: either unchanged, or
decremented by one starting from a positive value. -/
theorem recv_cooldown_cases (d : PersonDetector) (det : FrameDet) :
    (d.recv det).1.audio_cooldown = d.audio_cooldown ∨
    (0 < d.audio_cooldown ∧
      (d.recv det).1.audio_cooldown = d.audio_cooldown - 1) := by
  simp only [PersonDetector.recv]
  repeat' split
  all_goals simp_all

/-! ### Claim theorems: trigger-step behaviour -/

/-- Claim C2 (amended): a commit of `lastAnnouncedCount` happens exactly
when the incoming stabilized count differs from the last announced one,
is positive, and the cooldown counter is zero; on a commit the count is
stored and the cooldown armed to 10, and otherwise the state is
untouched.  No multi-tick stability run is required. -/
theorem commit_iff_change_positive_cooldown_zero (d : PersonDetector)
    (c : Nat) :
    ((d.should_play_audio c).1 = true ↔
      (c ≠ d.last_reported_count ∧ 0 < c ∧ d.audio_cooldown = 0)) ∧
    ((d.should_play_audio c).1 = true →
      (d.should_play_audio c).2.last_reported_count = c ∧
      (d.should_play_audio c).2.audio_cooldown = 10) ∧
    ((d.should_play_audio c).1 = false → (d.should_play_audio c).2 = d) := by
  refine ⟨spa_true_iff d c, ?_, spa_false_state d c⟩
  intro h
  rw [spa_true_state d c h]
  exact ⟨rfl, rfl⟩

/-- Witness for the amended C2 at a concrete input: from the initial
state, one tick with count 3 fires and commits. -/
theorem commit_iff_change_positive_cooldown_zero_witness :
    (PersonDetector.init.should_play_audio 3).1 = true ∧
    (PersonDetector.init.should_play_audio 3).2.last_reported_count = 3 ∧
    (PersonDetector.init.should_play_audio 3).2.audio_cooldown = 10 :=
  ⟨by decide,
   (commit_iff_change_positive_cooldown_zero PersonDetector.init 3).2.1
     (by decide)⟩

/-- Counterexample to claim C2 as stated: starting from the initial
state (where `last_reported_count = 0`), a single evaluation tick whose
stabilized count is 3 already commits (`lastAnnouncedCount` becomes 3),
although the value 3 has been observed for only 1 consecutive tick,
fewer than the claimed `stabilityThreshold = 5`.  The code keeps no
candidate/stability-run state at all. -/
theorem commit_on_first_tick_counterexample :
    (pollRun loopInit (fun _ => Option.none) "u" [3]).1.detector.last_reported_count = 3 ∧
    loopInit.detector.last_reported_count = 0 := by
  exact ⟨by decide, by decide⟩

/-- Claim C4: once `last_reported_count` already equals the stabilized
count being fed, an evaluation tick never emits an `Announce`. -/
theorem no_reannounce_when_already_reported (s : LoopState)
    (fs : String → Option String) (uid : String) (c : Nat)
    (h : s.detector.last_reported_count = s.detector.person_count) :
    (uiTick s fs uid).2.2 ≠ AlertAction.announce c := by
  intro hann
  have inv := uiTick_announce_inv s fs uid c hann
  have hsp := inv.2.1
  rw [spa_true_iff] at hsp
  exact hsp.1 h.symm

/-- Witness for C4 at a concrete state: count 3 already reported, the
tick does not announce 3 again. -/
theorem no_reannounce_when_already_reported_witness :
    ({ loopInit with detector :=
        { PersonDetector.init with person_count := 3,
                                   last_reported_count := 3 } } :
      LoopState).detector.last_reported_count = 3 ∧
    (uiTick { loopInit with detector :=
        { PersonDetector.init with person_count := 3,
                                   last_reported_count := 3 } }
      (fun _ => Option.none) "u").2.2 ≠ AlertAction.announce 3 :=
  ⟨by decide,
   no_reannounce_when_already_reported _ (fun _ => Option.none) "u" 3
     (by decide)⟩

/-- Claim C5: an announced count always lies in 1..5 (there is a clip
for it), and a stabilized count of 0 can never produce an `Announce`
(only the silence branch or no action). -/
theorem announce_count_in_one_to_five (s : LoopState)
    (fs : String → Option String) (uid : String) (c : Nat) :
    ((uiTick s fs uid).2.2 = AlertAction.announce c → 1 ≤ c ∧ c ≤ 5) ∧
    (s.detector.person_count = 0 →
      (uiTick s fs uid).2.2 ≠ AlertAction.announce c) := by
  constructor
  · intro h
    obtain ⟨_, _, _, f, hf⟩ := uiTick_announce_inv s fs uid c h
    exact AUDIO_FILES_range c f hf
  · intro h0 hann
    obtain ⟨_, hsp, _, _⟩ := uiTick_announce_inv s fs uid c hann
    rw [spa_true_iff] at hsp
    omega

/-- Witness for C5 at a concrete state: a tick that announces count 3,
which indeed lies in 1..5. -/
theorem announce_count_in_one_to_five_witness :
    (uiTick { loopInit with detector :=
        { PersonDetector.init with person_count := 3 } }
      (fun _ => Option.none) "u").2.2 = AlertAction.announce 3 ∧
    (1 ≤ 3 ∧ 3 ≤ 5) :=
  ⟨by decide,
   (announce_count_in_one_to_five
      { loopInit with detector :=
          { PersonDetector.init with person_count := 3 } }
      (fun _ => Option.none) "u" 3).1 (by decide)⟩

/-- Claim C10: whenever `should_play_audio` returns `False` it leaves
the whole trigger state (in particular `last_reported_count` and
`audio_cooldown`) exactly as it was. -/
theorem false_decision_leaves_state_unchanged (d : PersonDetector)
    (c : Nat) (h : (d.should_play_audio c).1 = false) :
    (d.should_play_audio c).2 = d :=
  spa_false_state d c h

/-- Witness for C10 at a concrete input: feeding count 0 returns
`False` and the state is untouched. -/
theorem false_decision_leaves_state_unchanged_witness :
    (PersonDetector.init.should_play_audio 0).1 = false ∧
    (PersonDetector.init.should_play_audio 0).2 = PersonDetector.init :=
  ⟨by decide,
   false_decision_leaves_state_unchanged PersonDetector.init 0 (by decide)⟩

/-- Claim C9: the cooldown counter starts at 0 and both operations on
the shared state (a frame callback and a UI poll) preserve its
nonnegativity. -/
theorem cooldown_counter_nonnegative :
    loopInit.detector.audio_cooldown = 0 ∧
    ∀ (s : LoopState) (op : SysOp), 0 ≤ s.detector.audio_cooldown →
      0 ≤ (sysStep s op).1.detector.audio_cooldown := by
  refine ⟨rfl, ?_⟩
  intro s op h
  cases op with
  | frameOp det =>
      simp only [sysStep]
      rcases recv_cooldown_cases s.detector det with h1 | ⟨h2, h3⟩
      · simpa [h1] using h
      · simp only [h3]
        omega
  | pollOp fs uid =>
      simp only [sysStep]
      rw [uiTick_detector_eq]
      rcases spa_state_cases s.detector s.detector.person_count with
        ⟨_, h2⟩ | ⟨_, h2⟩
      · rw [h2]
        simp
      · rw [h2]
        exact h

/-- Witness for C9 at concrete inputs: the initial cooldown is 0 and a
concrete poll step keeps it nonnegative. -/
theorem cooldown_counter_nonnegative_witness :
    (0 : Int) ≤ loopInit.detector.audio_cooldown ∧
    0 ≤ (sysStep loopInit
          (SysOp.pollOp (fun _ => Option.none) "u")).1.detector.audio_cooldown :=
  ⟨by decide,
   cooldown_counter_nonnegative.2 loopInit
     (SysOp.pollOp (fun _ => Option.none) "u") (by decide)⟩

/-! ### Frame-callback history lemmas and error-handling claims -/

/-- A frame whose detector call raised leaves the history untouched
(the exception aborts `recv` before the append). -/
theorem recv_error_hist (d : PersonDetector) (e : String) :
    (d.recv (Except.error e)).1.detection_history = d.detection_history := by
  simp only [PersonDetector.recv]
  split <;> rfl

/-- A processed frame with a successful detector call appends the
clamped count to the history. -/
theorem recv_ok_hist (d : PersonDetector) (boxes : Option (List Nat))
    (h : (d.frame_count + 1) % 2 = 0) :
    (d.recv (Except.ok boxes)).1.detection_history =
      dequeAppend 5 d.detection_history (min (countPersons boxes) 5) := by
  simp only [PersonDetector.recv]
  split
  · repeat' split
    all_goals rfl
  · simp_all

/-- Claim C7 (amended): when the detector call raises an exception the
tick performs no history update (the sample is dropped); but when the
detector returns malformed data (`boxes is None`) on a processed frame,
the code does NOT drop the sample — it inserts a raw count of 0 into
the history. -/
theorem detector_failure_history_effect :
    (∀ (d : PersonDetector) (e : String),
      (d.recv (Except.error e)).1.detection_history = d.detection_history) ∧
    (∀ d : PersonDetector, (d.frame_count + 1) % 2 = 0 →
      (d.recv (Except.ok Option.none)).1.detection_history =
        dequeAppend 5 d.detection_history 0) := by
  refine ⟨recv_error_hist, ?_⟩
  intro d h
  simpa using recv_ok_hist d Option.none h

/-- Witness for the amended C7 at concrete inputs: an exception frame
drops the sample, a malformed-boxes processed frame appends 0. -/
theorem detector_failure_history_effect_witness :
    (PersonDetector.init.recv (Except.error "model failed")).1.detection_history =
      PersonDetector.init.detection_history ∧
    (({ PersonDetector.init with frame_count := 1 } :
        PersonDetector).frame_count + 1) % 2 = 0 ∧
    (({ PersonDetector.init with frame_count := 1 } :
        PersonDetector).recv (Except.ok Option.none)).1.detection_history =
      dequeAppend 5 [] 0 :=
  ⟨detector_failure_history_effect.1 PersonDetector.init "model failed",
   by decide,
   detector_failure_history_effect.2
     { PersonDetector.init with frame_count := 1 } (by decide)⟩

/-- Counterexample to claim C7 as stated: a processed frame whose
detector result is malformed (`boxes is None`) does update the history
— a raw count of 0 is inserted in place of the failed sample (the
history goes from `[]` to `[0]`), exactly what the claim says must not
happen. -/
theorem malformed_boxes_insert_zero_counterexample :
    ((PersonDetector.init.recv (Except.ok (Option.some []))).1.recv
        (Except.ok Option.none)).1.detection_history = [0] ∧
    PersonDetector.init.detection_history = [] :=
  ⟨by decide, by decide⟩

/-- Claim C6: when the audio clip for the announced count cannot be
resolved (missing file), the loop body reports an error message, the
trigger state ends exactly as `should_play_audio` left it, and it is
independent of the file system — the failure itself changes nothing of
the trigger state and the tick completes normally. -/
theorem clip_unavailable_reported_state_preserved (s : LoopState)
    (fs : String → Option String) (uid f : String)
    (hsp : (s.detector.should_play_audio s.detector.person_count).1 = true)
    (hen : s.audio_enabled = true)
    (hf : AUDIO_FILES s.detector.person_count = Option.some f)
    (hfs : fs f = Option.none) :
    UIEvent.errorMsg ("Error playing " ++ f) ∈ (uiTick s fs uid).2.1 ∧
    (uiTick s fs uid).1.detector =
      (s.detector.should_play_audio s.detector.person_count).2 ∧
    (∀ fs' : String → Option String,
      (uiTick s fs' uid).1.detector = (uiTick s fs uid).1.detector) := by
  refine ⟨?_, uiTick_detector_eq s fs uid, ?_⟩
  · simp [uiTick, hsp, hen, hf, AudioManager.play_audio,
      AudioManager.stop_audio, hfs]
  · intro fs'
    rw [uiTick_detector_eq, uiTick_detector_eq]

/-- Witness for C6 at a concrete state: count 3 fires, the clip file is
absent, the error is reported and the trigger state matches the one
obtained with a file system that has the clip. -/
theorem clip_unavailable_reported_state_preserved_witness :
    (({ loopInit with detector :=
          { PersonDetector.init with person_count := 3 } } :
        LoopState).detector.should_play_audio 3).1 = true ∧
    UIEvent.errorMsg ("Error playing " ++ "3_people.mp3") ∈
      (uiTick { loopInit with detector :=
          { PersonDetector.init with person_count := 3 } }
        (fun _ => Option.none) "u").2.1 ∧
    (uiTick { loopInit with detector :=
          { PersonDetector.init with person_count := 3 } }
        (fun _ => Option.some "bytes") "u").1.detector =
      (uiTick { loopInit with detector :=
          { PersonDetector.init with person_count := 3 } }
        (fun _ => Option.none) "u").1.detector := by
  refine ⟨by decide, ?_, ?_⟩
  · exact (clip_unavailable_reported_state_preserved
      { loopInit with detector :=
          { PersonDetector.init with person_count := 3 } }
      (fun _ => Option.none) "u" "3_people.mp3"
      (by decide) (by decide) (by decide) (by decide)).1
  · exact (clip_unavailable_reported_state_preserved
      { loopInit with detector :=
          { PersonDetector.init with person_count := 3 } }
      (fun _ => Option.none) "u" "3_people.mp3"
      (by decide) (by decide) (by decide) (by decide)).2.2
      (fun _ => Option.some "bytes")

/-! ### Smoothing-filter lemmas (history window and median) -/

/-- Length of the last-`n` suffix. -/
theorem lastN_length (n : Nat) (l : List α) :
    (lastN n l).length = min n l.length := by
  simp [lastN]
  omega

/-- Appending to a bounded deque holding the last 5 inserted values
yields the last 5 of the extended insertion sequence. -/
theorem dequeAppend_lastN (ins : List Nat) (x : Nat) :
    dequeAppend 5 (lastN 5 ins) x = lastN 5 (ins ++ [x]) := by
  by_cases h : ins.length ≤ 4
  · have h0 : ins.length - 5 = 0 := by omega
    have hl : lastN 5 ins = ins := by simp [lastN, h0]
    have hp : (ins ++ [x]).length ≤ 5 := by
      simp
      omega
    have h1 : (ins ++ [x]).length - 5 = 0 := by
      simp
      omega
    rw [hl]
    simp only [dequeAppend, lastN, h1, List.drop_zero]
    rw [if_pos hp]
  · have hle : ins.length - 5 ≤ ins.length := by omega
    have hcat : lastN 5 ins ++ [x] = (ins ++ [x]).drop (ins.length - 5) := by
      simp only [lastN]
      rw [List.drop_append_of_le_length hle]
    have hlen : (lastN 5 ins ++ [x]).length = 6 := by
      simp only [List.length_append, lastN_length, List.length_cons,
        List.length_nil]
      omega
    have hgt : ¬ ((lastN 5 ins ++ [x]).length ≤ 5) := by
      rw [hlen]
      omega
    simp only [dequeAppend]
    rw [if_neg hgt, hlen, hcat, List.drop_drop]
    simp only [lastN]
    have e : (ins ++ [x]).length = ins.length + 1 := by simp
    rw [e]
    congr 1
    omega

/-- The last-5 window of a nonempty insertion sequence is nonempty. -/
theorem lastN_append_ne_nil (ins : List Nat) (x : Nat) :
    lastN 5 (ins ++ [x]) ≠ [] := by
  intro h
  have hlen := congrArg List.length h
  rw [lastN_length] at hlen
  simp at hlen

/-- `getD` with default 0 stays below 5 on lists of values below 5. -/
theorem getD_le_five : ∀ (l : List Nat) (i : Nat),
    (∀ x ∈ l, x ≤ 5) → l.getD i 0 ≤ 5
  | [], _, _ => by simp [List.getD]
  | a :: t, 0, h => by
      simpa using h a (List.mem_cons_self a t)
  | a :: t, i + 1, h => by
      simpa using getD_le_five t i (fun x hx => h x (List.mem_cons_of_mem a hx))

/-- The integer median of a list of values in [0,5] lies in [0,5]. -/
theorem intMedian_le_five (l : List Nat) (h : ∀ x ∈ l, x ≤ 5) :
    intMedian l ≤ 5 := by
  have hs : ∀ x ∈ List.insertionSort (fun a b => a ≤ b) l, x ≤ 5 := by
    intro x hx
    exact h x ((List.mem_insertionSort _).mp hx)
  simp only [intMedian]
  split
  · exact getD_le_five _ _ hs
  · have h1 := getD_le_five (List.insertionSort (fun a b => a ≤ b) l)
      ((List.insertionSort (fun a b => a ≤ b) l).length / 2 - 1) hs
    have h2 := getD_le_five (List.insertionSort (fun a b => a ≤ b) l)
      ((List.insertionSort (fun a b => a ≤ b) l).length / 2) hs
    omega

/-- Every value inserted into the history is clamped to at most 5. -/
theorem processedCounts_le_five : ∀ (frames : List FrameDet) (fc x : Nat),
    x ∈ processedCounts fc frames → x ≤ 5
  | [], fc, x, hx => by simp [processedCounts] at hx
  | f :: fs, fc, x, hx => by
      simp only [processedCounts] at hx
      split at hx
      · split at hx
        · exact processedCounts_le_five fs _ x hx
        · rcases List.mem_cons.mp hx with h1 | h2
          · subst h1
            omega
          · exact processedCounts_le_five fs _ x h2
      · exact processedCounts_le_five fs _ x hx

/-- Frame counter advances by one on every frame, processed or not. -/
theorem recv_frame_count (d : PersonDetector) (det : FrameDet) :
    (d.recv det).1.frame_count = d.frame_count + 1 := by
  simp only [PersonDetector.recv]
  repeat' split
  all_goals rfl

/-- A frame whose detector call raised only advances the frame counter. -/
theorem recv_error_state (d : PersonDetector) (e : String) :
    (d.recv (Except.error e)).1 =
      { d with frame_count := d.frame_count + 1 } := by
  simp only [PersonDetector.recv]
  split <;> rfl

/-- A skipped (odd) frame only advances the frame counter. -/
theorem recv_odd_state (d : PersonDetector) (det : FrameDet)
    (h : ¬ (d.frame_count + 1) % 2 = 0) :
    (d.recv det).1 = { d with frame_count := d.frame_count + 1 } := by
  simp only [PersonDetector.recv]
  split
  · simp_all
  · rfl

/-- On a processed frame with nonempty resulting history, the stabilized
count becomes the integer median of the new history. -/
theorem recv_ok_person (d : PersonDetector) (boxes : Option (List Nat))
    (h : (d.frame_count + 1) % 2 = 0)
    (hne : ¬ (dequeAppend 5 d.detection_history
        (min (countPersons boxes) 5)).isEmpty = true) :
    (d.recv (Except.ok boxes)).1.person_count =
      intMedian (dequeAppend 5 d.detection_history
        (min (countPersons boxes) 5)) := by
  simp only [PersonDetector.recv]
  repeat' split
  all_goals first | rfl | simp_all

/-- Invariant run of the frame stream: the detector history is always
the last-5 window of the inserted (clamped) counts, and the stabilized
count is the integer median of that window (0 before any insertion). -/
theorem runFrames_median : ∀ (frames : List FrameDet) (d : PersonDetector)
    (ins : List Nat),
    d.detection_history = lastN 5 ins →
    (ins ≠ [] → d.person_count = intMedian (lastN 5 ins)) →
    (ins = [] → d.person_count = 0) →
    (d.runFrames frames).detection_history =
      lastN 5 (ins ++ processedCounts d.frame_count frames) ∧
    (ins ++ processedCounts d.frame_count frames ≠ [] →
      (d.runFrames frames).person_count =
        intMedian (lastN 5 (ins ++ processedCounts d.frame_count frames))) ∧
    (ins ++ processedCounts d.frame_count frames = [] →
      (d.runFrames frames).person_count = 0)
  | [], d, ins, h1, h2, h3 => by
      simp only [PersonDetector.runFrames, processedCounts, List.append_nil]
      exact ⟨h1, h2, h3⟩
  | f :: fs, d, ins, h1, h2, h3 => by
      by_cases hp : (d.frame_count + 1) % 2 = 0
      · cases f with
        | error e =>
            have hrun : d.runFrames (Except.error e :: fs) =
                ((d.recv (Except.error e)).1).runFrames fs := rfl
            have hpc : processedCounts d.frame_count (Except.error e :: fs) =
                processedCounts (d.frame_count + 1) fs := by
              simp [processedCounts, hp]
            rw [hrun, recv_error_state d e, hpc]
            exact runFrames_median fs _ ins h1 h2 h3
        | ok boxes =>
            have hne : lastN 5 (ins ++ [min (countPersons boxes) 5]) ≠ [] :=
              lastN_append_ne_nil ins _
            have hhist : (d.recv (Except.ok boxes)).1.detection_history =
                lastN 5 (ins ++ [min (countPersons boxes) 5]) := by
              rw [recv_ok_hist d boxes hp, h1, dequeAppend_lastN]
            have hneI : ¬ (dequeAppend 5 d.detection_history
                (min (countPersons boxes) 5)).isEmpty = true := by
              rw [h1, dequeAppend_lastN]
              simpa using hne
            have hperson : (d.recv (Except.ok boxes)).1.person_count =
                intMedian (lastN 5 (ins ++ [min (countPersons boxes) 5])) := by
              rw [recv_ok_person d boxes hp hneI, h1, dequeAppend_lastN]
            have IH := runFrames_median fs ((d.recv (Except.ok boxes)).1)
              (ins ++ [min (countPersons boxes) 5]) hhist
              (fun _ => hperson)
              (by intro hh; exact absurd hh (by simp))
            rw [recv_frame_count d (Except.ok boxes)] at IH
            have hrun : d.runFrames (Except.ok boxes :: fs) =
                ((d.recv (Except.ok boxes)).1).runFrames fs := rfl
            have hpc : processedCounts d.frame_count (Except.ok boxes :: fs) =
                min (countPersons boxes) 5 ::
                  processedCounts (d.frame_count + 1) fs := by
              simp [processedCounts, hp]
            rw [hrun, hpc]
            have hsplit : ins ++ (min (countPersons boxes) 5 ::
                processedCounts (d.frame_count + 1) fs) =
                (ins ++ [min (countPersons boxes) 5]) ++
                  processedCounts (d.frame_count + 1) fs := by
              simp
            rw [hsplit]
            exact IH
      · have hrun : d.runFrames (f :: fs) = ((d.recv f).1).runFrames fs := rfl
        have hpc : processedCounts d.frame_count (f :: fs) =
            processedCounts (d.frame_count + 1) fs := by
          simp [processedCounts, hp]
        rw [hrun, recv_odd_state d f hp, hpc]
        exact runFrames_median fs _ ins h1 h2 h3

/-- Claim C1: for every frame stream fed to the detector callback, the
stabilized count lies in [0,5], and as soon as at least one sample has
been inserted it equals the integer median (`int(np.median(...))`) of
the last 5 inserted values, each clamped to at most 5. -/
theorem stable_count_bounded_and_median (frames : List FrameDet) :
    (PersonDetector.init.runFrames frames).person_count ≤ 5 ∧
    (processedCounts 0 frames ≠ [] →
      (PersonDetector.init.runFrames frames).person_count =
        intMedian (lastN 5 (processedCounts 0 frames))) := by
  have H := runFrames_median frames PersonDetector.init []
    rfl (fun hh => absurd rfl hh) (fun _ => rfl)
  simp only [List.nil_append] at H
  refine ⟨?_, H.2.1⟩
  by_cases hpc : processedCounts 0 frames = []
  · have h0 : (PersonDetector.init.runFrames frames).person_count = 0 :=
      H.2.2 hpc
    rw [h0]
    omega
  · have hx : ∀ x ∈ lastN 5 (processedCounts 0 frames), x ≤ 5 := by
      intro x hxm
      exact processedCounts_le_five frames 0 x (List.drop_subset _ _ hxm)
    have he : (PersonDetector.init.runFrames frames).person_count =
        intMedian (lastN 5 (processedCounts 0 frames)) := H.2.1 hpc
    rw [he]
    exact intMedian_le_five _ hx

/-- Witness for C1 at a concrete frame stream: two successful frames
with one person each; the second frame is processed, the history is
`[1]` and the stabilized count is its median. -/
theorem stable_count_bounded_and_median_witness :
    processedCounts 0 [Except.ok (Option.some [0]),
      Except.ok (Option.some [0])] ≠ [] ∧
    (PersonDetector.init.runFrames [Except.ok (Option.some [0]),
      Except.ok (Option.some [0])]).person_count ≤ 5 ∧
    (PersonDetector.init.runFrames [Except.ok (Option.some [0]),
      Except.ok (Option.some [0])]).person_count =
      intMedian (lastN 5 (processedCounts 0 [Except.ok (Option.some [0]),
        Except.ok (Option.some [0])])) :=
  ⟨by decide,
   (stable_count_bounded_and_median _).1,
   (stable_count_bounded_and_median _).2 (by decide)⟩

/-! ### Cooldown spacing of announcements (C3) -/

/-- An action that is provably never an announcement has `isAnnounce`
false. -/
theorem isAnnounce_eq_false_of_ne (a : AlertAction)
    (h : ∀ c, a ≠ AlertAction.announce c) : a.isAnnounce = false := by
  cases a with
  | announce n => exact absurd rfl (h n)
  | silence => rfl
  | noAction => rfl

/-- A poll that runs while the cooldown is nonzero cannot announce and
leaves the detector untouched. -/
theorem uiTick_cooldown_pos_no_announce (s : LoopState)
    (fs : String → Option String) (uid : String)
    (h : s.detector.audio_cooldown ≠ 0) :
    (uiTick s fs uid).1.detector = s.detector ∧
    ∀ c, (uiTick s fs uid).2.2 ≠ AlertAction.announce c := by
  have hsp : (s.detector.should_play_audio s.detector.person_count).1 =
      false := by
    rcases spa_state_cases s.detector s.detector.person_count with
      ⟨h1, _⟩ | ⟨h1, _⟩
    · rw [spa_true_iff] at h1
      exact absurd h1.2.2 h
    · exact h1
  constructor
  · rw [uiTick_detector_eq, spa_false_state _ _ hsp]
  · intro c hann
    have htrue := (uiTick_announce_inv s fs uid c hann).2.1
    rw [htrue] at hsp
    simp at hsp

/-- While the cooldown exceeds the number of remaining frame callbacks,
no announcement can be emitted (each frame decrements by at most one
and a firing needs the counter at exactly zero). -/
theorem no_announce_under_cooldown : ∀ (ops : List SysOp) (s : LoopState),
    ((ops.countP SysOp.isFrameOp : Int)) < s.detector.audio_cooldown →
    ((sysRun s ops).2.countP AlertAction.isAnnounce) = 0
  | [], _, _ => by simp [sysRun]
  | SysOp.frameOp det :: ops, s, h => by
      simp only [List.countP_cons, SysOp.isFrameOp, if_true] at h
      push_cast at h
      have hcd := recv_cooldown_cases s.detector det
      have hrec : ((ops.countP SysOp.isFrameOp : Int)) <
          ((s.detector.recv det).1).audio_cooldown := by
        rcases hcd with heq | ⟨hpos, heq⟩ <;> omega
      have h0 := no_announce_under_cooldown ops
        ({ s with detector := (s.detector.recv det).1 }) hrec
      simp only [sysRun, sysStep, List.countP_cons, AlertAction.isAnnounce]
      simpa using h0
  | SysOp.pollOp fs uid :: ops, s, h => by
      simp only [List.countP_cons, SysOp.isFrameOp] at h
      push_cast at h
      have hne : s.detector.audio_cooldown ≠ 0 := by omega
      obtain ⟨hdet, hno⟩ := uiTick_cooldown_pos_no_announce s fs uid hne
      have hrec : ((ops.countP SysOp.isFrameOp : Int)) <
          ((uiTick s fs uid).1).detector.audio_cooldown := by
        rw [hdet]
        omega
      have h0 := no_announce_under_cooldown ops ((uiTick s fs uid).1) hrec
      have hfalse : AlertAction.isAnnounce (uiTick s fs uid).2.2 = false :=
        isAnnounce_eq_false_of_ne _ hno
      simp only [sysRun, sysStep, List.countP_cons, hfalse]
      simpa using h0

/-- A step that announces leaves the cooldown armed at 10. -/
theorem sysStep_announce_cooldown (s : LoopState) (op : SysOp) (c : Nat)
    (h : (sysStep s op).2 = AlertAction.announce c) :
    (sysStep s op).1.detector.audio_cooldown = 10 := by
  cases op with
  | frameOp det => simp [sysStep] at h
  | pollOp fs uid =>
      have inv := uiTick_announce_inv s fs uid c h
      simp only [sysStep]
      rw [uiTick_detector_eq, spa_true_state _ _ inv.2.1]

/-- Claim C3 (amended): at most one `Announce` can be emitted over any
window of operations containing fewer than 10 frame callbacks — i.e.
two announcements are always separated by at least the full 10-tick
cooldown.  (`Silence` is not gated by the cooldown; see the
counterexample.) -/
theorem announce_cooldown_spacing : ∀ (ops : List SysOp) (s : LoopState),
    ops.countP SysOp.isFrameOp < 10 →
    ((sysRun s ops).2.countP AlertAction.isAnnounce) ≤ 1
  | [], _, _ => by simp [sysRun]
  | op :: ops, s, h => by
      have hle : ops.countP SysOp.isFrameOp ≤
          (op :: ops).countP SysOp.isFrameOp := by
        rw [List.countP_cons]
        exact Nat.le_add_right _ _
      cases hA : (sysStep s op).2 with
      | announce c =>
          have hcd := sysStep_announce_cooldown s op c hA
          have hrec : ((ops.countP SysOp.isFrameOp : Int)) <
              (sysStep s op).1.detector.audio_cooldown := by
            rw [hcd]
            omega
          have h0 := no_announce_under_cooldown ops ((sysStep s op).1) hrec
          simp only [sysRun, List.countP_cons, hA, AlertAction.isAnnounce]
          simp [h0]
      | silence =>
          have h0 := announce_cooldown_spacing ops ((sysStep s op).1)
            (by omega)
          simp only [sysRun, List.countP_cons, hA, AlertAction.isAnnounce]
          simpa using h0
      | noAction =>
          have h0 := announce_cooldown_spacing ops ((sysStep s op).1)
            (by omega)
          simp only [sysRun, List.countP_cons, hA, AlertAction.isAnnounce]
          simpa using h0

/-- Witness for the amended C3: a concrete two-poll window with no
frame callbacks emits at most one announcement. -/
theorem announce_cooldown_spacing_witness :
    ([SysOp.pollOp (fun _ => Option.none) "a",
      SysOp.pollOp (fun _ => Option.none) "b"].countP SysOp.isFrameOp) < 10 ∧
    ((sysRun loopInit [SysOp.pollOp (fun _ => Option.none) "a",
      SysOp.pollOp (fun _ => Option.none) "b"]).2.countP
        AlertAction.isAnnounce) ≤ 1 :=
  ⟨by decide,
   announce_cooldown_spacing
     [SysOp.pollOp (fun _ => Option.none) "a",
      SysOp.pollOp (fun _ => Option.none) "b"] loopInit (by decide)⟩

/-- Counterexample to claim C3 as stated: starting from a state that
has just seen two frames with three people, a poll announces 3 (arming
the 10-tick cooldown), four frame callbacks later (cooldown still at 8)
the count has dropped to 0 and the very next poll emits `Silence` — two
emitted audio actions (`Announce` then `Silence`) separated by only 4
frame callbacks, far less than the cooldown, because the silence branch
of the loop is not gated by the cooldown at all. -/
theorem announce_then_silence_within_cooldown_counterexample :
    ((sysRun (sysRun loopInit
        [SysOp.frameOp (Except.ok (Option.some [0, 0, 0])),
         SysOp.frameOp (Except.ok (Option.some [0, 0, 0]))]).1
        [SysOp.pollOp (fun _ => Option.none) "a",
         SysOp.frameOp (Except.ok (Option.some [])),
         SysOp.frameOp (Except.ok (Option.some [])),
         SysOp.frameOp (Except.ok (Option.some [])),
         SysOp.frameOp (Except.ok (Option.some [])),
         SysOp.pollOp (fun _ => Option.none) "b"]).2 =
      [AlertAction.announce 3, AlertAction.noAction, AlertAction.noAction,
       AlertAction.noAction, AlertAction.noAction, AlertAction.silence]) ∧
    ([SysOp.pollOp (fun _ => Option.none) "a",
      SysOp.frameOp (Except.ok (Option.some [])),
      SysOp.frameOp (Except.ok (Option.some [])),
      SysOp.frameOp (Except.ok (Option.some [])),
      SysOp.frameOp (Except.ok (Option.some [])),
      SysOp.pollOp (fun _ => Option.none) "b"].countP SysOp.isFrameOp = 4) ∧
    ((sysRun (sysRun loopInit
        [SysOp.frameOp (Except.ok (Option.some [0, 0, 0])),
         SysOp.frameOp (Except.ok (Option.some [0, 0, 0]))]).1
        [SysOp.pollOp (fun _ => Option.none) "a",
         SysOp.frameOp (Except.ok (Option.some [])),
         SysOp.frameOp (Except.ok (Option.some [])),
         SysOp.frameOp (Except.ok (Option.some [])),
         SysOp.frameOp (Except.ok (Option.some [])),
         SysOp.pollOp (fun _ => Option.none) "b"]).1.detector.audio_cooldown
      = 8) :=
  ⟨by decide, by decide, by decide⟩

/-! ### Eventual silence after a drop to zero (C8) -/

/-- A consumer poll that announces always announces a positive count. -/
theorem readTick_announce_pos (s : LoopState) (c a : Nat)
    (fs : String → Option String) (uid : String)
    (h : (readTick s c fs uid).2 = AlertAction.announce a) : 0 < a := by
  have inv := uiTick_announce_inv
    { s with detector := { s.detector with person_count := c } } fs uid a h
  have hsp := inv.2.1
  rw [spa_true_iff] at hsp
  have hac : a = c := by simpa using inv.1
  have hpos : 0 < c := by simpa using hsp.2.1
  omega

/-- No run of consumer polls ever announces 0. -/
theorem pollRun_no_announce_zero : ∀ (cs : List Nat) (s : LoopState)
    (fs : String → Option String) (uid : String),
    AlertAction.announce 0 ∉ (pollRun s fs uid cs).2
  | [], _, _, _ => by simp [pollRun]
  | c :: cs, s, fs, uid => by
      simp only [pollRun]
      intro hmem
      rcases List.mem_cons.mp hmem with h1 | h2
      · exact absurd (readTick_announce_pos s c 0 fs uid h1.symm) (by omega)
      · exact pollRun_no_announce_zero cs _ fs uid h2

/-- A poll whose count equals both the last reported and last played
positive count changes nothing and takes no action. -/
theorem readTick_tracking_fix (s : LoopState) (c : Nat)
    (fs : String → Option String) (uid : String)
    (hp : 0 < c) (h1 : s.detector.person_count = c)
    (h2 : s.detector.last_reported_count = c)
    (h3 : s.last_played_count = c) :
    readTick s c fs uid = (s, AlertAction.noAction) := by
  obtain ⟨d, m, lp, ld, en⟩ := s
  obtain ⟨pc, fc, dh, lrc, ac⟩ := d
  simp only at h1 h2 h3
  subst h1
  subst h2
  subst h3
  simp [readTick, uiTick, PersonDetector.should_play_audio, hp, hp.ne']

/-- Polling an unchanged count repeatedly stays a no-op. -/
theorem pollRun_replicate_fix (n : Nat) (s : LoopState) (c : Nat)
    (fs : String → Option String) (uid : String)
    (hfix : readTick s c fs uid = (s, AlertAction.noAction)) :
    pollRun s fs uid (List.replicate n c) =
      (s, List.replicate n AlertAction.noAction) := by
  induction n with
  | zero => simp [pollRun]
  | succ k ih => simp [List.replicate_succ, pollRun, hfix, ih]

/-- Runs of consumer polls decompose over appended count sequences. -/
theorem pollRun_append (s : LoopState) (fs : String → Option String)
    (uid : String) (l1 l2 : List Nat) :
    pollRun s fs uid (l1 ++ l2) =
      ((pollRun (pollRun s fs uid l1).1 fs uid l2).1,
       (pollRun s fs uid l1).2 ++
         (pollRun (pollRun s fs uid l1).1 fs uid l2).2) := by
  induction l1 generalizing s with
  | nil => simp [pollRun]
  | cons c cs ih => simp [pollRun, ih]

/-- The very first poll reading count 3 from the initial state
announces 3 and commits it everywhere. -/
theorem readTick_first_announce (fs : String → Option String)
    (uid : String) :
    (readTick loopInit 3 fs uid).2 = AlertAction.announce 3 ∧
    (readTick loopInit 3 fs uid).1.detector.person_count = 3 ∧
    (readTick loopInit 3 fs uid).1.detector.last_reported_count = 3 ∧
    (readTick loopInit 3 fs uid).1.last_played_count = 3 := by
  rcases hfs : fs "3_people.mp3" with _ | b <;>
    simp [readTick, uiTick, PersonDetector.should_play_audio, AUDIO_FILES,
      AudioManager.play_audio, AudioManager.stop_audio, loopInit,
      PersonDetector.init, hfs]

/-- A poll reading count 0 after something was played emits `Silence`. -/
theorem readTick_zero_silence (s : LoopState)
    (fs : String → Option String) (uid : String)
    (h : s.last_played_count ≠ 0) :
    (readTick s 0 fs uid).2 = AlertAction.silence := by
  have hsp : (({ s with detector :=
      { s.detector with person_count := 0 } } :
      LoopState).detector.should_play_audio 0).1 = false := by
    rcases spa_state_cases
      ({ s with detector := { s.detector with person_count := 0 } } :
        LoopState).detector 0 with ⟨hh, _⟩ | ⟨hh, _⟩
    · rw [spa_true_iff] at hh
      exact absurd hh.2.1 (by omega)
    · exact hh
  simp [readTick, uiTick, hsp, h]

/-- Claim C8: with audio enabled from the initial state, if the
stabilized count reads 3 for more than `stabilityThreshold = 5`
consecutive polls and then drops to 0 and stays there, a `Silence`
action is eventually emitted (at the first zero tick), and
`Announce(0)` is never emitted in the whole run. -/
theorem drop_to_zero_eventually_silence (k m : Nat) (hk : 6 ≤ k)
    (hm : 1 ≤ m) (fs : String → Option String) (uid : String) :
    AlertAction.silence ∈
      (pollRun loopInit fs uid
        (List.replicate k 3 ++ List.replicate m 0)).2 ∧
    AlertAction.announce 0 ∉
      (pollRun loopInit fs uid
        (List.replicate k 3 ++ List.replicate m 0)).2 := by
  refine ⟨?_, pollRun_no_announce_zero _ _ fs uid⟩
  obtain ⟨k', rfl⟩ : ∃ k', k = k' + 1 := ⟨k - 1, by omega⟩
  obtain ⟨m', rfl⟩ : ∃ m', m = m' + 1 := ⟨m - 1, by omega⟩
  have hfirst := readTick_first_announce fs uid
  have hfix : readTick (readTick loopInit 3 fs uid).1 3 fs uid =
      ((readTick loopInit 3 fs uid).1, AlertAction.noAction) :=
    readTick_tracking_fix _ 3 fs uid (by omega) hfirst.2.1 hfirst.2.2.1
      hfirst.2.2.2
  have hrep : pollRun (readTick loopInit 3 fs uid).1 fs uid
      (List.replicate k' 3) =
      ((readTick loopInit 3 fs uid).1,
       List.replicate k' AlertAction.noAction) :=
    pollRun_replicate_fix k' _ 3 fs uid hfix
  have hsil : (readTick (readTick loopInit 3 fs uid).1 0 fs uid).2 =
      AlertAction.silence := by
    apply readTick_zero_silence
    rw [hfirst.2.2.2]
    omega
  have hshape : List.replicate (k' + 1) 3 ++ List.replicate (m' + 1) 0 =
      3 :: (List.replicate k' 3 ++ (0 :: List.replicate m' 0)) := by
    simp [List.replicate_succ]
  rw [hshape]
  have hms : AlertAction.silence ∈ (pollRun (readTick loopInit 3 fs uid).1
      fs uid (List.replicate k' 3 ++ (0 :: List.replicate m' 0))).2 := by
    rw [pollRun_append, hrep]
    simp only [pollRun, hsil]
    simp
  simp only [pollRun]
  exact List.mem_cons_of_mem _ hms

/-- Witness for C8 at concrete parameters: six ticks of 3 then one tick
of 0 yield a `Silence`. -/
theorem drop_to_zero_eventually_silence_witness :
    (6 ≤ 6 ∧ 1 ≤ 1) ∧
    AlertAction.silence ∈
      (pollRun loopInit (fun _ => Option.none) "u"
        (List.replicate 6 3 ++ List.replicate 1 0)).2 :=
  ⟨⟨by decide, by decide⟩,
   (drop_to_zero_eventually_silence 6 1 (by decide) (by decide)
      (fun _ => Option.none) "u").1⟩
